import Mathlib

/-!
Verification of the democracy-index data pipeline
(`src/economist_democracy_index.py`).

Scores are modelled as exact rationals (`ℚ`).  At every concrete score used
below the IEEE-double comparisons of the source and the rational comparisons
agree, because the thresholds 4.0, 6.0 and 8.0 are exact doubles and the
rounding of 3.999, 5.999 and 7.999 to doubles does not cross a threshold.
Regime categories are the literal strings the source uses.  The `NaN` the
source writes into cell (4,4) of the migration matrix is modelled as `none`
of an `Option ℕ` cell.
-/

namespace EDI

/-- Embeds `Data.assign_regime_type`: inclusive lower-bound thresholds,
evaluated highest first, defaulting to `"Authoritarian"`. -/
def assign_regime_type (democracy_index : ℚ) : String :=
  if democracy_index ≥ 8 then "Full democracy"
  else if democracy_index ≥ 6 then "Flawed democracy"
  else if democracy_index ≥ 4 then "Hybrid regime"
  else "Authoritarian"

/-- The category list of `Data.get_migration_matrix`, in the source's order. -/
def regimes : List String :=
  ["Authoritarian", "Hybrid regime", "Flawed democracy", "Full democracy"]

/-- Position of a category in `regimes`; orders the four categories
Authoritarian < Hybrid regime < Flawed democracy < Full democracy. -/
def regimeRank (r : String) : ℕ := regimes.indexOf r

/-- One long-form row of `Data.df` after the melt: region, country, the
regime label carried over from the source table, a year and a score. -/
structure Obs where
  region : String
  country : String
  regimeType : String
  year : Int
  score : ℚ
  deriving DecidableEq, Repr

/-- Embeds `Data.get_yearly_data`: keep the rows of the given year, then
overwrite the stored `RegimeType` with `assign_regime_type` of the score. -/
def get_yearly_data (df : List Obs) (year : Int) : List Obs :=
  (df.filter (fun o => o.year = year)).map
    (fun o => { o with regimeType := assign_regime_type o.score })

/-- Single pass over the rows of one year accumulating (sum, count), the
group aggregation underlying `groupby("Year")["DemocracyIndex"].mean()`. -/
def yearFold (df : List Obs) (year : Int) : ℚ × ℕ :=
  df.foldl (fun acc o => if o.year = year then (acc.1 + o.score, acc.2 + 1) else acc)
    (0, 0)

/-- The mean score of one year group. -/
def yearMean (df : List Obs) (year : Int) : ℚ :=
  (yearFold df year).1 / (yearFold df year).2

/-- Embeds `Data.get_world_average`: one (year, mean score) row per distinct
year occurring in the data. -/
def get_world_average (df : List Obs) : List (Int × ℚ) :=
  ((df.map (fun o => o.year)).eraseDups).map (fun y => (y, yearMean df y))

/-- A fetched HTML table: column headers paired with their cell strings. -/
def Table := List (String × List String)

instance : DecidableEq Table := by unfold Table; infer_instance

/-- The cell clean-up in `Data.get_raw_data`: undo the soft-hyphen line
breaks of the two long region names. -/
def fixSoftHyphens (s : String) : String :=
  (s.replace "Asia and Austral\u00adasia" "Asia and Australasia").replace
    "Latin America and the Carib\u00adbean" "Latin America and the Caribbean"

/-- The column rename in `Data.get_raw_data`. -/
def renameRegimeColumn (c : String) : String :=
  if c = "Regime type" then "RegimeType" else c

/-- Embeds `Data.get_raw_data`: take table 5 of the fetched page; when it is
absent the IndexError is turned into a ValueError with a fixed message.  On
success the column rename and cell clean-up are applied. -/
def get_raw_data (tables : List Table) : Except String Table :=
  match tables.get? 5 with
  | some df => .ok (df.map (fun col =>
      (renameRegimeColumn col.1, col.2.map fixSoftHyphens)))
  | none => .error "The expected table was not found on the Wikipedia."

/-- Elementwise `==` of a 1-D string array against a scalar. -/
def maskEq (l : List String) (r : String) : List Bool :=
  l.map (fun x => decide (x = r))

/-- Elementwise `&` of two 1-D boolean arrays with numpy broadcasting:
defined when the lengths agree or one side has length one; a length
mismatch otherwise raises (`none`). -/
def numpyAnd (a b : List Bool) : Option (List Bool) :=
  if a.length = b.length then some (List.zipWith (fun x y => x && y) a b)
  else
    match a, b with
    | [x], b => some (b.map (fun y => x && y))
    | a, [y] => some (a.map (fun x => x && y))
    | _, _ => none

/-- `.sum()` of a boolean mask. -/
def countTrue (l : List Bool) : ℕ := (l.filter (fun x => x)).length

/-- Broadcast compatibility of two 1-D array lengths. -/
def broadcastOk (m n : ℕ) : Bool := m == n || m == 1 || n == 1

/-- One block cell of the migration matrix:
`((cats1 == r1) & (cats2 == r2)).sum()`. -/
def blockCount (c1 c2 : List String) (r1 r2 : String) : ℕ :=
  countTrue ((numpyAnd (maskEq c1 r1) (maskEq c2 r2)).getD [])

/-- Row total of the 4×4 block: `np.sum(m[:4, :4], axis=1)` for one row. -/
def rowTotal (c1 c2 : List String) (r1 : String) : ℕ :=
  (regimes.map (fun r2 => blockCount c1 c2 r1 r2)).sum

/-- Column total of the 4×4 block: `np.sum(m[:4, :4], axis=0)` for one
column. -/
def colTotal (c1 c2 : List String) (r2 : String) : ℕ :=
  (regimes.map (fun r1 => blockCount c1 c2 r1 r2)).sum

/-- Embeds `Data.get_migration_matrix` on two collections of
(country, category) pairs.  Only the category columns are read; rows are
compared positionwise.  Rows 0–3 hold the block row followed by its row
total; row 4 holds the column totals followed by the `NaN` cell (`none`).
A non-broadcastable length mismatch raises (`none`). -/
def migrationMatrix (l1 l2 : List (String × String)) :
    Option (List (List (Option ℕ))) :=
  let c1 := l1.map (fun p => p.2)
  let c2 := l2.map (fun p => p.2)
  if broadcastOk c1.length c2.length then
    some ((regimes.map (fun r1 =>
        regimes.map (fun r2 => some (blockCount c1 c2 r1 r2)) ++
          [some (rowTotal c1 c2 r1)])) ++
      [regimes.map (fun r2 => some (colTotal c1 c2 r2)) ++ [none]])
  else none

/-- The matrix of a successful build (the builds below all succeed). -/
def theMatrix (l1 l2 : List (String × String)) : List (List (Option ℕ)) :=
  (migrationMatrix l1 l2).getD []

/-- Cell (i, j) of a built matrix; `none` models the `NaN` at (4,4). -/
def cell (M : List (List (Option ℕ))) (i j : ℕ) : Option ℕ :=
  (M.getD i []).getD j none

/-- Numeric value of a defined cell. -/
def cellVal (M : List (List (Option ℕ))) (i j : ℕ) : ℕ :=
  (cell M i j).getD 0

/-- A two-row sample year used by concrete witnesses below. -/
def sampleDf : List Obs :=
  [⟨"r", "c", "x", 2006, 4⟩, ⟨"r", "d", "x", 2006, 6⟩]

lemma countTrue_eq_countP (l : List Bool) : countTrue l = l.countP (fun b => b) := by
  simp [countTrue, List.countP_eq_length_filter]

lemma countTrue_zipWith {α : Type} (p q : α → Bool) (c1 c2 : List α) :
    countTrue (List.zipWith (fun x y => x && y) (c1.map p) (c2.map q)) =
      (c1.zip c2).countP (fun r => p r.1 && q r.2) := by
  induction c1 generalizing c2 with
  | nil => simp [countTrue]
  | cons a t ih =>
    cases c2 with
    | nil => simp [countTrue]
    | cons b t2 =>
      have h := ih t2
      simp only [countTrue_eq_countP] at h ⊢
      simp [List.countP_cons] at h ⊢
      omega

lemma countP_zip_self {α : Type} (h : α × α → Bool) (rows : List α) :
    (rows.zip rows).countP h = rows.countP (fun a => h (a, a)) := by
  induction rows with
  | nil => simp
  | cons a t ih => simp [List.countP_cons, ih]

/-- With arrays of equal length the block cell counts the positions whose
zipped categories are exactly (r1, r2). -/
lemma blockCount_eq (c1 c2 : List String) (h : c1.length = c2.length)
    (r1 r2 : String) :
    blockCount c1 c2 r1 r2 =
      (c1.zip c2).countP (fun p => decide (p.1 = r1) && decide (p.2 = r2)) := by
  unfold blockCount maskEq numpyAnd
  rw [if_pos (by simp [h])]
  simpa using countTrue_zipWith (fun x => decide (x = r1)) (fun x => decide (x = r2)) c1 c2

/-- The block cell built from the two projections of one row list counts
the rows matching both categories. -/
lemma blockCount_map {α : Type} (rows : List α) (f g : α → String) (r1 r2 : String) :
    blockCount (rows.map f) (rows.map g) r1 r2 =
      (rows.filter (fun x => decide (f x = r1) && decide (g x = r2))).length := by
  rw [blockCount_eq _ _ (by simp), List.zip_map, List.countP_map, countP_zip_self]
  simp [List.countP_eq_length_filter, Function.comp]

/-- Partitioning one fixed first category by the four second categories. -/
lemma countP_second_partition (z : List (String × String)) (r1 : String)
    (h2 : ∀ p ∈ z, p.2 ∈ regimes) :
    z.countP (fun p => decide (p.1 = r1) && decide (p.2 = "Authoritarian")) +
      z.countP (fun p => decide (p.1 = r1) && decide (p.2 = "Hybrid regime")) +
      z.countP (fun p => decide (p.1 = r1) && decide (p.2 = "Flawed democracy")) +
      z.countP (fun p => decide (p.1 = r1) && decide (p.2 = "Full democracy")) =
    z.countP (fun p => decide (p.1 = r1)) := by
  induction z with
  | nil => simp
  | cons a t ih =>
    have ha : a.2 ∈ regimes := h2 a (List.mem_cons_self a t)
    have ih2 := ih (fun p hp => h2 p (List.mem_cons_of_mem a hp))
    simp only [List.countP_cons]
    simp only [regimes, List.mem_cons, List.not_mem_nil, or_false] at ha
    rcases ha with h | h | h | h <;> by_cases hr : a.1 = r1 <;>
      simp [h, hr] <;> omega

/-- Partitioning by the four first categories recovers the list length. -/
lemma countP_first_partition (z : List (String × String))
    (h1 : ∀ p ∈ z, p.1 ∈ regimes) :
    z.countP (fun p => decide (p.1 = "Authoritarian")) +
      z.countP (fun p => decide (p.1 = "Hybrid regime")) +
      z.countP (fun p => decide (p.1 = "Flawed democracy")) +
      z.countP (fun p => decide (p.1 = "Full democracy")) = z.length := by
  induction z with
  | nil => simp
  | cons a t ih =>
    have ha : a.1 ∈ regimes := h1 a (List.mem_cons_self a t)
    have ih2 := ih (fun p hp => h1 p (List.mem_cons_of_mem a hp))
    simp only [List.countP_cons, List.length_cons]
    simp only [regimes, List.mem_cons, List.not_mem_nil, or_false] at ha
    rcases ha with h | h | h | h <;> simp [h] <;> omega

end EDI

open EDI

/-- C4 counterexample: country "A" appears only in the start-year input and
country "B" only in the end-year input, yet the builder counts this row:
cell (0,0) of the matrix is 1, not 0, because rows are matched by position,
not by country identity. -/
theorem migration_positional_counterexample :
    migrationMatrix [("A", "Authoritarian")] [("B", "Authoritarian")] =
      some [[some 1, some 0, some 0, some 0, some 1],
            [some 0, some 0, some 0, some 0, some 0],
            [some 0, some 0, some 0, some 0, some 0],
            [some 0, some 0, some 0, some 0, some 0],
            [some 1, some 0, some 0, some 0, none]] := by decide

/-- C4 amended: the builder never reads the country column at all — any two
inputs with the same category columns build the same matrix, so rows are
paired purely by position. -/
theorem migration_ignores_country (l1 l2 l3 l4 : List (String × String))
    (h1 : l1.map (fun p => p.2) = l3.map (fun p => p.2))
    (h2 : l2.map (fun p => p.2) = l4.map (fun p => p.2)) :
    migrationMatrix l1 l2 = migrationMatrix l3 l4 := by
  unfold migrationMatrix
  rw [h1, h2]

/-- Witness for the amended C4: renaming the only country changes nothing. -/
theorem migration_ignores_country_witness :
    migrationMatrix [("A", "Authoritarian")] [("B", "Authoritarian")] =
      migrationMatrix [("C", "Authoritarian")] [("D", "Authoritarian")] :=
  migration_ignores_country _ _ _ _ (by decide) (by decide)

/-- C5 counterexample: inputs of lengths 2 and 3 are not broadcastable, so
the elementwise `&` inside the builder raises instead of returning a
matrix — the builder does have a failure mode. -/
theorem migration_length_mismatch_counterexample :
    migrationMatrix [("A", "Authoritarian"), ("B", "Authoritarian")]
      [("C", "Authoritarian"), ("D", "Authoritarian"), ("E", "Authoritarian")] =
      none := by decide

/-- C5 amended: whenever the two input lengths broadcast (equal, or one
side of length one) the builder returns a 5×5 matrix, and on two empty
inputs every defined cell is zero while cell (4,4) stays undefined. -/
theorem migration_shape (l1 l2 : List (String × String))
    (h : broadcastOk l1.length l2.length = true) :
    (migrationMatrix l1 l2).isSome = true ∧
      (theMatrix l1 l2).length = 5 ∧
      (∀ row ∈ theMatrix l1 l2, row.length = 5) ∧
      (migrationMatrix [] [] =
        some [[some 0, some 0, some 0, some 0, some 0],
              [some 0, some 0, some 0, some 0, some 0],
              [some 0, some 0, some 0, some 0, some 0],
              [some 0, some 0, some 0, some 0, some 0],
              [some 0, some 0, some 0, some 0, none]]) := by
  have hb : broadcastOk (l1.map (fun p => p.2)).length
      (l2.map (fun p => p.2)).length = true := by
    simpa using h
  refine ⟨?_, ?_, ?_, by decide⟩
  · simp [migrationMatrix, regimes]
    simpa using h
  · simp [migrationMatrix, theMatrix, h, regimes]
  · simp [migrationMatrix, theMatrix, h, regimes]

/-- Witness for the amended C5 at lengths 1 and 0 (broadcastable). -/
theorem migration_shape_witness :
    (migrationMatrix [("X", "Authoritarian")] []).isSome = true ∧
      (theMatrix [("X", "Authoritarian")] []).length = 5 ∧
      (∀ row ∈ theMatrix [("X", "Authoritarian")] [], row.length = 5) ∧
      (migrationMatrix [] [] =
        some [[some 0, some 0, some 0, some 0, some 0],
              [some 0, some 0, some 0, some 0, some 0],
              [some 0, some 0, some 0, some 0, some 0],
              [some 0, some 0, some 0, some 0, some 0],
              [some 0, some 0, some 0, some 0, none]]) :=
  migration_shape [("X", "Authoritarian")] [] (by decide)

/-- C6: the builder is deterministic — two runs on the same two inputs
yield the same matrix. -/
theorem migration_deterministic (l1 l2 : List (String × String))
    (M M2 : List (List (Option ℕ)))
    (h1 : migrationMatrix l1 l2 = some M)
    (h2 : migrationMatrix l1 l2 = some M2) : M = M2 := by
  have := h1.symm.trans h2
  exact Option.some_injective _ this

/-- Witness for C6 on two empty inputs. -/
theorem migration_deterministic_witness :
    ([[some 0, some 0, some 0, some 0, some 0],
      [some 0, some 0, some 0, some 0, some 0],
      [some 0, some 0, some 0, some 0, some 0],
      [some 0, some 0, some 0, some 0, some 0],
      [some 0, some 0, some 0, some 0, none]] :
        List (List (Option ℕ))) =
      [[some 0, some 0, some 0, some 0, some 0],
       [some 0, some 0, some 0, some 0, some 0],
       [some 0, some 0, some 0, some 0, some 0],
       [some 0, some 0, some 0, some 0, some 0],
       [some 0, some 0, some 0, some 0, none]] :=
  migration_deterministic [] [] _ _ (by decide) (by decide)

/-- C1: `assign_regime_type` is total on ℚ, returns one of the four
categories, the bands are characterised by inclusive lower bounds evaluated
highest first, and the six boundary scores classify as the spec states. -/
theorem classifier_thresholds :
    (∀ s : ℚ, assign_regime_type s ∈ regimes) ∧
    (∀ s : ℚ, (assign_regime_type s = "Full democracy" ↔ 8 ≤ s) ∧
      (assign_regime_type s = "Flawed democracy" ↔ 6 ≤ s ∧ s < 8) ∧
      (assign_regime_type s = "Hybrid regime" ↔ 4 ≤ s ∧ s < 6) ∧
      (assign_regime_type s = "Authoritarian" ↔ s < 4)) ∧
    assign_regime_type (3999/1000) = "Authoritarian" ∧
    assign_regime_type 4 = "Hybrid regime" ∧
    assign_regime_type (5999/1000) = "Hybrid regime" ∧
    assign_regime_type 6 = "Flawed democracy" ∧
    assign_regime_type (7999/1000) = "Flawed democracy" ∧
    assign_regime_type 8 = "Full democracy" := by
  refine ⟨?_, ?_, by norm_num [assign_regime_type], by norm_num [assign_regime_type],
    by norm_num [assign_regime_type], by norm_num [assign_regime_type],
    by norm_num [assign_regime_type], by norm_num [assign_regime_type]⟩
  · intro s
    unfold assign_regime_type regimes
    split_ifs <;> simp
  · intro s
    unfold assign_regime_type
    split_ifs with h8 h6 h4 <;>
      refine ⟨?_, ?_, ?_, ?_⟩ <;> simp_all <;> intros <;> linarith

/-- C10: the classifier is monotone: a larger score is never assigned a
category strictly below (in the order Authoritarian < Hybrid regime <
Flawed democracy < Full democracy) that of a smaller score. -/
theorem classifier_monotone (s1 s2 : ℚ) (h : s1 ≤ s2) :
    regimeRank (assign_regime_type s1) ≤ regimeRank (assign_regime_type s2) := by
  unfold assign_regime_type
  split_ifs <;> first | decide | (exfalso; linarith)

/-- Witness for C10 at concrete scores 3 ≤ 9. -/
theorem classifier_monotone_witness :
    regimeRank (assign_regime_type 3) ≤ regimeRank (assign_regime_type 9) :=
  classifier_monotone 3 9 (by norm_num)

/-- C2: for category indices i, j < 4, the block cell (i, j) of the matrix
built from the two projections of one matched row list equals the number of
countries whose category is i at the start year and j at the end year. -/
theorem migration_block_counts (rows : List (String × String × String))
    (i j : ℕ) (hi : i < 4) (hj : j < 4) :
    cell (theMatrix (rows.map (fun r => (r.1, r.2.1)))
        (rows.map (fun r => (r.1, r.2.2)))) i j =
      some ((rows.filter (fun r =>
        r.2.1 = regimes.getD i "" ∧ r.2.2 = regimes.getD j "")).length) := by
  have hb : broadcastOk rows.length rows.length = true := by
    simp [broadcastOk]
  interval_cases i <;> interval_cases j <;>
    simp [theMatrix, migrationMatrix, cell, hb, regimes, List.map_map,
      Function.comp, blockCount_map]

/-- Witness for C2 on the spec's worked example, cell (1, 3): one country
moved from Hybrid regime to Full democracy. -/
theorem migration_block_counts_witness :
    cell (theMatrix
        ([("a", "Full democracy", "Full democracy"),
          ("b", "Hybrid regime", "Full democracy"),
          ("c", "Authoritarian", "Authoritarian")].map (fun r => (r.1, r.2.1)))
        ([("a", "Full democracy", "Full democracy"),
          ("b", "Hybrid regime", "Full democracy"),
          ("c", "Authoritarian", "Authoritarian")].map (fun r => (r.1, r.2.2))))
        1 3 =
      some (([("a", "Full democracy", "Full democracy"),
          ("b", "Hybrid regime", "Full democracy"),
          ("c", "Authoritarian", "Authoritarian")].filter (fun r =>
        r.2.1 = regimes.getD 1 "" ∧ r.2.2 = regimes.getD 3 "")).length) :=
  migration_block_counts _ 1 3 (by decide) (by decide)

/-- C3: for a matrix built from two equal-length category collections over
the four categories, the sixteen block cells sum to the number of matched
countries, each totals-column entry is its block row sum, each totals-row
entry is its block column sum, and cell (4,4) is left undefined. -/
theorem migration_marginals (l1 l2 : List (String × String))
    (i j : ℕ) (hi : i < 4) (hj : j < 4)
    (hlen : l1.length = l2.length)
    (h1 : ∀ p ∈ l1, p.2 ∈ regimes) (h2 : ∀ p ∈ l2, p.2 ∈ regimes)
    (M : List (List (Option ℕ))) (hM : M = theMatrix l1 l2) :
    (cellVal M 0 0 + cellVal M 0 1 + cellVal M 0 2 + cellVal M 0 3 +
     cellVal M 1 0 + cellVal M 1 1 + cellVal M 1 2 + cellVal M 1 3 +
     cellVal M 2 0 + cellVal M 2 1 + cellVal M 2 2 + cellVal M 2 3 +
     cellVal M 3 0 + cellVal M 3 1 + cellVal M 3 2 + cellVal M 3 3 =
       l1.length) ∧
    cell M i 4 =
      some (cellVal M i 0 + cellVal M i 1 + cellVal M i 2 + cellVal M i 3) ∧
    cell M 4 j =
      some (cellVal M 0 j + cellVal M 1 j + cellVal M 2 j + cellVal M 3 j) ∧
    cell M 4 4 = none := by
  subst hM
  have hb : broadcastOk l1.length l2.length = true := by
    simp [broadcastOk, hlen]
  have hlen2 : (l1.map (fun p => p.2)).length = (l2.map (fun p => p.2)).length := by
    simp [hlen]
  have hz2 : ∀ p ∈ (l1.map (fun p => p.2)).zip (l2.map (fun p => p.2)),
      p.2 ∈ regimes := by
    intro p hp
    obtain ⟨-, hp2⟩ := List.of_mem_zip hp
    obtain ⟨q, hq, hqe⟩ := List.mem_map.mp hp2
    rw [← hqe]
    exact h2 q hq
  have hz1 : ∀ p ∈ (l1.map (fun p => p.2)).zip (l2.map (fun p => p.2)),
      p.1 ∈ regimes := by
    intro p hp
    obtain ⟨hp1, -⟩ := List.of_mem_zip hp
    obtain ⟨q, hq, hqe⟩ := List.mem_map.mp hp1
    rw [← hqe]
    exact h1 q hq
  refine ⟨?_, ?_, ?_, ?_⟩
  · have e1 := countP_second_partition _ "Authoritarian" hz2
    have e2 := countP_second_partition _ "Hybrid regime" hz2
    have e3 := countP_second_partition _ "Flawed democracy" hz2
    have e4 := countP_second_partition _ "Full democracy" hz2
    have ef := countP_first_partition _ hz1
    have hzlen : ((l1.map (fun p => p.2)).zip (l2.map (fun p => p.2))).length =
        l1.length := by
      simp [hlen]
    simp only [cellVal, cell, theMatrix, migrationMatrix]
    simp [hb, regimes, blockCount_eq _ _ hlen2]
    omega
  · interval_cases i <;>
      simp [cellVal, cell, theMatrix, migrationMatrix, hb, regimes, rowTotal] <;>
      omega
  · interval_cases j <;>
      simp [cellVal, cell, theMatrix, migrationMatrix, hb, regimes, colTotal] <;>
      omega
  · simp [cell, theMatrix, migrationMatrix, hb, regimes]

/-- Witness for C3 on the spec's worked example (three matched countries),
at totals indices i = 0, j = 0. -/
theorem migration_marginals_witness :
    (cellVal (theMatrix [("a", "Full democracy"), ("b", "Hybrid regime"),
          ("c", "Authoritarian")]
        [("a", "Full democracy"), ("b", "Full democracy"),
          ("c", "Authoritarian")]) 0 0 +
     cellVal (theMatrix [("a", "Full democracy"), ("b", "Hybrid regime"),
          ("c", "Authoritarian")]
        [("a", "Full democracy"), ("b", "Full democracy"),
          ("c", "Authoritarian")]) 0 1 +
     cellVal (theMatrix [("a", "Full democracy"), ("b", "Hybrid regime"),
          ("c", "Authoritarian")]
        [("a", "Full democracy"), ("b", "Full democracy"),
          ("c", "Authoritarian")]) 0 2 +
     cellVal (theMatrix [("a", "Full democracy"), ("b", "Hybrid regime"),
          ("c", "Authoritarian")]
        [("a", "Full democracy"), ("b", "Full democracy"),
          ("c", "Authoritarian")]) 0 3 +
     cellVal (theMatrix [("a", "Full democracy"), ("b", "Hybrid regime"),
          ("c", "Authoritarian")]
        [("a", "Full democracy"), ("b", "Full democracy"),
          ("c", "Authoritarian")]) 1 0 +
     cellVal (theMatrix [("a", "Full democracy"), ("b", "Hybrid regime"),
          ("c", "Authoritarian")]
        [("a", "Full democracy"), ("b", "Full democracy"),
          ("c", "Authoritarian")]) 1 1 +
     cellVal (theMatrix [("a", "Full democracy"), ("b", "Hybrid regime"),
          ("c", "Authoritarian")]
        [("a", "Full democracy"), ("b", "Full democracy"),
          ("c", "Authoritarian")]) 1 2 +
     cellVal (theMatrix [("a", "Full democracy"), ("b", "Hybrid regime"),
          ("c", "Authoritarian")]
        [("a", "Full democracy"), ("b", "Full democracy"),
          ("c", "Authoritarian")]) 1 3 +
     cellVal (theMatrix [("a", "Full democracy"), ("b", "Hybrid regime"),
          ("c", "Authoritarian")]
        [("a", "Full democracy"), ("b", "Full democracy"),
          ("c", "Authoritarian")]) 2 0 +
     cellVal (theMatrix [("a", "Full democracy"), ("b", "Hybrid regime"),
          ("c", "Authoritarian")]
        [("a", "Full democracy"), ("b", "Full democracy"),
          ("c", "Authoritarian")]) 2 1 +
     cellVal (theMatrix [("a", "Full democracy"), ("b", "Hybrid regime"),
          ("c", "Authoritarian")]
        [("a", "Full democracy"), ("b", "Full democracy"),
          ("c", "Authoritarian")]) 2 2 +
     cellVal (theMatrix [("a", "Full democracy"), ("b", "Hybrid regime"),
          ("c", "Authoritarian")]
        [("a", "Full democracy"), ("b", "Full democracy"),
          ("c", "Authoritarian")]) 2 3 +
     cellVal (theMatrix [("a", "Full democracy"), ("b", "Hybrid regime"),
          ("c", "Authoritarian")]
        [("a", "Full democracy"), ("b", "Full democracy"),
          ("c", "Authoritarian")]) 3 0 +
     cellVal (theMatrix [("a", "Full democracy"), ("b", "Hybrid regime"),
          ("c", "Authoritarian")]
        [("a", "Full democracy"), ("b", "Full democracy"),
          ("c", "Authoritarian")]) 3 1 +
     cellVal (theMatrix [("a", "Full democracy"), ("b", "Hybrid regime"),
          ("c", "Authoritarian")]
        [("a", "Full democracy"), ("b", "Full democracy"),
          ("c", "Authoritarian")]) 3 2 +
     cellVal (theMatrix [("a", "Full democracy"), ("b", "Hybrid regime"),
          ("c", "Authoritarian")]
        [("a", "Full democracy"), ("b", "Full democracy"),
          ("c", "Authoritarian")]) 3 3 =
       ([("a", "Full democracy"), ("b", "Hybrid regime"),
          ("c", "Authoritarian")] :
         List (String × String)).length) ∧
    cell (theMatrix [("a", "Full democracy"), ("b", "Hybrid regime"),
          ("c", "Authoritarian")]
        [("a", "Full democracy"), ("b", "Full democracy"),
          ("c", "Authoritarian")]) 0 4 =
      some (cellVal (theMatrix [("a", "Full democracy"), ("b", "Hybrid regime"),
          ("c", "Authoritarian")]
        [("a", "Full democracy"), ("b", "Full democracy"),
          ("c", "Authoritarian")]) 0 0 +
        cellVal (theMatrix [("a", "Full democracy"), ("b", "Hybrid regime"),
          ("c", "Authoritarian")]
        [("a", "Full democracy"), ("b", "Full democracy"),
          ("c", "Authoritarian")]) 0 1 +
        cellVal (theMatrix [("a", "Full democracy"), ("b", "Hybrid regime"),
          ("c", "Authoritarian")]
        [("a", "Full democracy"), ("b", "Full democracy"),
          ("c", "Authoritarian")]) 0 2 +
        cellVal (theMatrix [("a", "Full democracy"), ("b", "Hybrid regime"),
          ("c", "Authoritarian")]
        [("a", "Full democracy"), ("b", "Full democracy"),
          ("c", "Authoritarian")]) 0 3) ∧
    cell (theMatrix [("a", "Full democracy"), ("b", "Hybrid regime"),
          ("c", "Authoritarian")]
        [("a", "Full democracy"), ("b", "Full democracy"),
          ("c", "Authoritarian")]) 4 0 =
      some (cellVal (theMatrix [("a", "Full democracy"), ("b", "Hybrid regime"),
          ("c", "Authoritarian")]
        [("a", "Full democracy"), ("b", "Full democracy"),
          ("c", "Authoritarian")]) 0 0 +
        cellVal (theMatrix [("a", "Full democracy"), ("b", "Hybrid regime"),
          ("c", "Authoritarian")]
        [("a", "Full democracy"), ("b", "Full democracy"),
          ("c", "Authoritarian")]) 1 0 +
        cellVal (theMatrix [("a", "Full democracy"), ("b", "Hybrid regime"),
          ("c", "Authoritarian")]
        [("a", "Full democracy"), ("b", "Full democracy"),
          ("c", "Authoritarian")]) 2 0 +
        cellVal (theMatrix [("a", "Full democracy"), ("b", "Hybrid regime"),
          ("c", "Authoritarian")]
        [("a", "Full democracy"), ("b", "Full democracy"),
          ("c", "Authoritarian")]) 3 0) ∧
    cell (theMatrix [("a", "Full democracy"), ("b", "Hybrid regime"),
          ("c", "Authoritarian")]
        [("a", "Full democracy"), ("b", "Full democracy"),
          ("c", "Authoritarian")]) 4 4 = none :=
  migration_marginals _ _ 0 0 (by decide) (by decide) (by decide)
    (by decide) (by decide) _ rfl

/-- The running (sum, count) accumulator of one year group, from any start. -/
lemma yearFold_go (df : List Obs) (y : Int) (a : ℚ) (n : ℕ) :
    df.foldl (fun acc o => if o.year = y then (acc.1 + o.score, acc.2 + 1) else acc)
        (a, n) =
      (a + ((df.filter (fun o => o.year = y)).map (fun o => o.score)).sum,
       n + (df.filter (fun o => o.year = y)).length) := by
  induction df generalizing a n with
  | nil => simp
  | cons o t ih =>
    by_cases h : o.year = y
    · simp [h, ih, List.filter_cons]
      constructor <;> ring
    · simp [h, ih, List.filter_cons]

/-- C7: every (year, value) row of the world-average aggregation carries the
arithmetic mean — sum divided by count — of the scores of the observations
of that year. -/
theorem world_average_mean (df : List Obs) (y : Int) (v : ℚ)
    (h : (y, v) ∈ get_world_average df) :
    v = ((df.filter (fun o => o.year = y)).map (fun o => o.score)).sum /
        ((df.filter (fun o => o.year = y)).length : ℚ) := by
  unfold get_world_average at h
  obtain ⟨y2, hy2, he⟩ := List.mem_map.mp h
  injection he with h1 h2
  subst h1
  rw [← h2]
  unfold yearMean yearFold
  rw [yearFold_go]
  simp

/-- Witness for C7: two observations of year 2006 with scores 4 and 6
average to 5. -/
theorem world_average_mean_witness :
    (5 : ℚ) =
      ((sampleDf.filter (fun o => o.year = 2006)).map (fun o => o.score)).sum /
        ((sampleDf.filter (fun o => o.year = 2006)).length : ℚ) :=
  world_average_mean sampleDf 2006 5 (by
    have h1 : (sampleDf.map (fun o => o.year)).eraseDups = ([2006] : List Int) := by
      decide
    have h2 : yearMean sampleDf 2006 = 5 := by
      norm_num [yearMean, yearFold, sampleDf]
    unfold get_world_average
    rw [h1]
    simp [h2])

/-- C8: fetching the raw data fails — with exactly the fixed descriptive
ValueError message, and with no other outcome — precisely when the fetched
page has no table at index 5; otherwise it succeeds. -/
theorem raw_data_error_iff (tables : List Table) :
    (get_raw_data tables =
        Except.error "The expected table was not found on the Wikipedia.") ↔
      tables.length ≤ 5 := by
  unfold get_raw_data
  rcases hg : tables.get? 5 with _ | t
  · simp [List.get?_eq_none.mp hg]
  · have hlt : ¬ tables.length ≤ 5 := by
      intro hle
      rw [List.get?_eq_none.mpr hle] at hg
      exact Option.noConfusion hg
    simp [hlt]

/-- C9: every row returned by the yearly-data operation carries the regime
category recomputed from its own score by the classifier, and belongs to the
requested year; the stored source label never survives. -/
theorem yearly_data_regime (df : List Obs) (y : Int) (o : Obs)
    (h : o ∈ get_yearly_data df y) :
    o.regimeType = assign_regime_type o.score ∧ o.year = y := by
  unfold get_yearly_data at h
  obtain ⟨p, hp, he⟩ := List.mem_map.mp h
  obtain ⟨hpd, hpy⟩ := List.mem_filter.mp hp
  subst he
  refine ⟨rfl, ?_⟩
  simpa using hpy

/-- Witness for C9: a row whose stored label "lbl" is overwritten with the
classification of its score 5. -/
theorem yearly_data_regime_witness :
    (⟨"R", "C", "Hybrid regime", 2006, 5⟩ : Obs).regimeType =
        assign_regime_type (⟨"R", "C", "Hybrid regime", 2006, 5⟩ : Obs).score ∧
      (⟨"R", "C", "Hybrid regime", 2006, 5⟩ : Obs).year = 2006 :=
  yearly_data_regime [⟨"R", "C", "lbl", 2006, 5⟩] 2006
    ⟨"R", "C", "Hybrid regime", 2006, 5⟩ (by decide)
